import Mathlib

/-!
Shallow embedding of the address reference-index builder and the
match/risk-scoring engine of the lbg-ipi-hackathon repository.

Modelled source:
* `AddressValidator_Agent/tools/createAddressDB.py`, function
  `initialize_database`;
* `AddressValidator_Agent/tools/AddressValidator.py`, method
  `AddressAgent.validate` — called version A below;
* `LBG_IPI_DQ_CHECKS/agents/tools/AddressValidator.py`, methods
  `AddressAgent.validate` and `AddressAgent._is_duplicate` — called
  version B below (its `createAddressDB.initialize_database` is the
  same code as version A's).

External collaborators are modelled at their boundary: libpostal's
`parse_address` output is an explicit list of `(value, label)` pairs, a
sqlite table is a list of rows in insertion order, `SELECT ... WHERE p
LIMIT 1` is `List.find?`, the SQL `LIKE` operator is the executable
`likeChars` below, and the random draw of `_is_duplicate` is an explicit
boolean parameter.  Python exceptions (IndexError on `[0]` of an empty
list, pandas' FileNotFoundError, sqlite's OperationalError) are modelled
with `Except`.
-/

namespace AddressValidation

/-- Python `x in l` for a list of strings. -/
def strIn (x : String) (l : List String) : Bool :=
  l.any (fun y => y == x)

/-- Python `str.upper()` for the ASCII data these validators handle
(structural, so that closed terms evaluate in the kernel). -/
def upperStr (s : String) : String :=
  ⟨s.data.map Char.toUpper⟩

/-- Python `str.lower()`. -/
def lowerStr (s : String) : String :=
  ⟨s.data.map Char.toLower⟩

/-- Python `s.strip()` with no argument: drop leading and trailing
whitespace. -/
def trimStr (s : String) : String :=
  ⟨((s.data.dropWhile Char.isWhitespace).reverse.dropWhile Char.isWhitespace).reverse⟩

/-- Tokenizer behind `splitWs`: accumulate the current token (reversed)
and cut at whitespace, dropping empty tokens. -/
def wsTokens : List Char → List Char → List (List Char)
  | acc, [] => if acc.isEmpty then [] else [acc.reverse]
  | acc, c :: rest =>
    if c.isWhitespace then
      if acc.isEmpty then wsTokens [] rest else acc.reverse :: wsTokens [] rest
    else
      wsTokens (c :: acc) rest

/-- Python `s.split()` : split on whitespace, dropping empty pieces. -/
def splitWs (s : String) : List String :=
  (wsTokens [] s.data).map (fun cs => ⟨cs⟩)

/-- Python `" ".join(l)`. -/
def joinSp : List String → String
  | [] => ""
  | [x] => x
  | x :: xs => x ++ " " ++ joinSp xs

/-- Python `s.split(',')[0]` : the text before the first comma. -/
def beforeComma (s : String) : String :=
  ⟨s.data.takeWhile (fun c => c != ',')⟩

/-- Python `needle in text` : substring containment. -/
def containsSub (needle : List Char) : List Char → Bool
  | [] => needle.isEmpty
  | c :: rest => needle.isPrefixOf (c :: rest) || containsSub needle rest

/-- Membership of a character in the strip set of `s.strip(", ")`. -/
def isCommaSpace (c : Char) : Bool :=
  c == ',' || c == ' '

/-- Python `s.strip(", ")` : drop leading and trailing commas and spaces. -/
def stripCommaSpace (s : String) : String :=
  ⟨((s.data.dropWhile isCommaSpace).reverse.dropWhile isCommaSpace).reverse⟩

/-- Python f-string rendering of a possibly-NULL value (`None` prints as
the four letters "None"). -/
def pyFormat (o : Option String) : String :=
  match o with
  | none => "None"
  | some s => s

/-- Python `a or b` on optional strings: both `None` and `""` are falsy. -/
def pyOrS (a b : Option String) : Option String :=
  match a with
  | none => b
  | some s => if s = "" then b else some s

/-- The dict comprehension `{label: value.upper() for value, label in
parsed}` read at `label`: the last pair carrying the label wins. -/
def addrGet (parsed : List (String × String)) (label : String) : Option String :=
  ((parsed.filter (fun p => p.2 == label)).map (fun p => upperStr p.1)).getLast?

/-- SQLite `LIKE` on character lists, structured by explicit fuel so
that it is structurally recursive: `%` matches any sequence, `_` matches
any single character, every other pattern character matches itself.  The
code uppercases both operands before comparing, so plain character
equality is used here.  Every recursive call shrinks the combined length
of pattern and text, so `likeChars` below always supplies enough fuel
and the `fuel = 0` arm is unreachable. -/
def likeFuel : Nat → List Char → List Char → Bool
  | 0, _, _ => false
  | _ + 1, [], [] => true
  | _ + 1, [], _ :: _ => false
  | n + 1, '%' :: ps, [] => likeFuel n ps []
  | n + 1, '%' :: ps, c :: s => likeFuel n ps (c :: s) || likeFuel n ('%' :: ps) s
  | n + 1, '_' :: ps, _ :: s => likeFuel n ps s
  | _ + 1, '_' :: _, [] => false
  | n + 1, p :: ps, c :: s => p == c && likeFuel n ps s
  | _ + 1, _ :: _, [] => false

/-- SQLite `LIKE` on character lists, with adequate fuel. -/
def likeChars (p s : List Char) : Bool :=
  likeFuel (p.length + s.length + 1) p s

/-- SQLite `text LIKE pattern` on strings. -/
def sqlLike (pattern text : String) : Bool :=
  likeChars pattern.data text.data

/-- Character class `[A-Z]` of the postcode regexes. -/
def isUpperAZ (c : Char) : Bool :=
  'A' ≤ c && c ≤ 'Z'

/-- Character class `[0-9]` of the postcode regexes. -/
def isDigit09 (c : Char) : Bool :=
  '0' ≤ c && c ≤ '9'

/-- Character class `[A-Z0-9]` of the postcode regexes. -/
def isUpperOrDigit (c : Char) : Bool :=
  isUpperAZ c || isDigit09 c

/-- The full UK postcode regex of both validators,
`^[A-Z]{1,2}[0-9][A-Z0-9]? [0-9][A-Z]{2}$`, decided by the length of the
outward code (2, 3 or 4 characters before the single space). -/
def fullPcMatch (s : String) : Bool :=
  match s.data with
  | [a, b, ' ', d, e, f] =>
      isUpperAZ a && isDigit09 b && isDigit09 d && isUpperAZ e && isUpperAZ f
  | [a, b, c, ' ', d, e, f] =>
      isUpperAZ a && ((isDigit09 b && isUpperOrDigit c) || (isUpperAZ b && isDigit09 c)) &&
        isDigit09 d && isUpperAZ e && isUpperAZ f
  | [a, b, c, x, ' ', d, e, f] =>
      isUpperAZ a && isUpperAZ b && isDigit09 c && isUpperOrDigit x &&
        isDigit09 d && isUpperAZ e && isUpperAZ f
  | _ => false

/-- The district-only postcode regex of version A,
`^[A-Z]{1,2}[0-9][A-Z0-9]?$`. -/
def distPcMatch (s : String) : Bool :=
  match s.data with
  | [a, b] => isUpperAZ a && isDigit09 b
  | [a, b, c] =>
      isUpperAZ a && ((isDigit09 b && isUpperOrDigit c) || (isUpperAZ b && isDigit09 c))
  | [a, b, c, x] =>
      isUpperAZ a && isUpperAZ b && isDigit09 c && isUpperOrDigit x
  | _ => false

/-- One row of the `os_data` table (equally: one raw CSV row projected to
the eight `cols_to_keep` columns).  Every column is nullable — pandas
turns a missing cell into NaN, which sqlite stores as NULL. -/
structure OsRecord where
  ID : Option String
  NAME1 : Option String
  LOCAL_TYPE : Option String
  POSTCODE_DISTRICT : Option String
  POPULATED_PLACE : Option String
  DISTRICT_BOROUGH : Option String
  COUNTY_UNITARY : Option String
  COUNTRY : Option String
deriving DecidableEq, Repr

/-- The normalized query both validators derive from the parser output:
`search_term`, `postcode`, `input_district`, `user_area_context` and the
house number.  Empty string stands for Python `None`/`""` (the code only
ever tests these fields for truthiness or compares them with non-empty
strings). -/
structure AddressQuery where
  search_term : String
  postcode : String
  input_district : String
  area_context : String
  house_number : String
deriving DecidableEq, Repr

/-- Version A's output `CustomerAddressProfile`.  The `provider_metadata`
dict is flattened into its three keys `os_id`, `local_type`, `country`. -/
structure CustomerAddressProfile where
  is_valid : Bool
  standardized_address : String
  classification : String
  populated_place : Option String
  district_borough : Option String
  county : Option String
  risk_score : Int
  risk_flags : List String
  confidence_level : String
  meta_os_id : Option String
  meta_local_type : Option String
  meta_country : Option String
deriving DecidableEq, Repr

/-- Version B's output `CustomerAddressDQ`: version A's profile plus the
`is_duplicate` flag. -/
structure CustomerAddressDQ where
  is_valid : Bool
  standardized_address : String
  classification : String
  is_duplicate : Bool
  populated_place : Option String
  district_borough : Option String
  county : Option String
  risk_score : Int
  risk_flags : List String
  confidence_level : String
  meta_os_id : Option String
  meta_local_type : Option String
  meta_country : Option String
deriving DecidableEq, Repr

/-- The `geo_labels` list of both validators. -/
def geoLabels : List String :=
  ["road", "suburb", "city", "neighborhood", "village", "hamlet", "state_district"]

/-- `search_components`: the uppercased values of all geo-labelled pairs,
in parser order. -/
def searchComponents (parsed : List (String × String)) : List String :=
  (parsed.filter (fun p => strIn p.2 geoLabels)).map (fun p => upperStr p.1)

/-- The fallback for an empty `search_term`: the text before the first
comma if the raw input has one, else `user_input.split()[0]` — which
raises IndexError when the raw input has no whitespace-free token. -/
def fallbackSearchTerm (raw : String) : Except String String :=
  if raw.data.contains ',' then
    Except.ok (upperStr (trimStr (beforeComma raw)))
  else
    match splitWs raw with
    | [] => Except.error "IndexError: list index out of range"
    | t :: _ => Except.ok (upperStr (trimStr t))

/-- Steps 1 of both validators: derive the `AddressQuery` from the parser
output and the raw input string.  Identical in versions A and B (A writes
the fallback as `if`/`elif`, B as one conditional expression). -/
def normalizeQuery (parsed : List (String × String)) (raw : String) :
    Except String AddressQuery :=
  let joined := trimStr (joinSp (searchComponents parsed))
  let stE := if joined != "" then Except.ok joined else fallbackSearchTerm raw
  match stE with
  | Except.error e => Except.error e
  | Except.ok st =>
    let pc := trimStr (joinSp
        ((parsed.filter (fun p => p.2 == "postcode")).map (fun p => upperStr p.1)))
    let district := if pc = "" then "" else (splitWs pc).headD ""
    let ctx := (pyOrS (pyOrS (addrGet parsed "city") (addrGet parsed "suburb"))
        (addrGet parsed "state_district")).getD ""
    let hn := trimStr ((addrGet parsed "house_number").getD "")
    Except.ok { search_term := st, postcode := pc, input_district := district,
                area_context := ctx, house_number := hn }

/-- The WHERE clause of the refined search,
`upper(NAME1) LIKE 'search_term%' AND upper(POSTCODE_DISTRICT) LIKE
'input_district%'`.  A NULL column never satisfies a SQL comparison. -/
def tier1Pred (q : AddressQuery) (r : OsRecord) : Bool :=
  (match r.NAME1 with
   | none => false
   | some n => sqlLike (q.search_term ++ "%") (upperStr n)) &&
  (match r.POSTCODE_DISTRICT with
   | none => false
   | some d => sqlLike (q.input_district ++ "%") (upperStr d))

/-- The WHERE clause of the fallback search, `upper(NAME1) = search_term`. -/
def tier2Pred (q : AddressQuery) (r : OsRecord) : Bool :=
  match r.NAME1 with
  | none => false
  | some n => upperStr n == q.search_term

/-- Step 2 of both validators: the two-tier database search.  Identical
in versions A and B. -/
def matchRecords (tbl : List OsRecord) (q : AddressQuery) : Option OsRecord :=
  if q.search_term = "" then none
  else
    let m1 := if q.input_district = "" then none else tbl.find? (tier1Pred q)
    match m1 with
    | some r => some r
    | none => tbl.find? (tier2Pred q)

/-- The `residential_types` list of both validators. -/
def residentialTypes : List String :=
  ["Postcode", "Named Road", "Hamlet", "Village", "Other Settlement"]

/-- `"RESIDENTIAL" if db_match['LOCAL_TYPE'] in residential_types else
"BUSINESS"` — the same line in versions A and B. -/
def classifyRecord (r : OsRecord) : String :=
  if strIn (r.LOCAL_TYPE.getD "") residentialTypes then "RESIDENTIAL" else "BUSINESS"

/-- The area cross-check condition of both validators: a user-stated area
context that equals neither the uppercased `POPULATED_PLACE` nor the
uppercased `DISTRICT_BOROUGH`, skipping whichever of the two is empty. -/
def geoBad (q : AddressQuery) (r : OsRecord) : Bool :=
  let dbCity := upperStr (r.POPULATED_PLACE.getD "")
  let dbBorough := upperStr (r.DISTRICT_BOROUGH.getD "")
  q.area_context != "" &&
    !((dbCity != "" && dbCity == q.area_context) ||
      (dbBorough != "" && dbBorough == q.area_context))

/-- Standardized address of a matched query — the same construction in
versions A and B: `f"{house_no} {NAME1}, {final_pc}".strip(", ").upper()`
with `final_pc` the query postcode, else the record's postcode district. -/
def stdAddrMatched (q : AddressQuery) (r : OsRecord) : String :=
  let finalRoad := pyFormat r.NAME1
  let finalPc := if q.postcode != "" then q.postcode else pyFormat r.POSTCODE_DISTRICT
  upperStr (stripCommaSpace (q.house_number ++ " " ++ finalRoad ++ ", " ++ finalPc))

/-- Version A's standardized address of an unmatched query. -/
def stdAddrUnmatchedA (q : AddressQuery) : String :=
  let finalRoad := if q.search_term != "" then q.search_term else "UNKNOWN ROAD"
  let finalPc := if q.postcode != "" then q.postcode else "UNKNOWN POSTCODE"
  upperStr (stripCommaSpace (q.house_number ++ " " ++ finalRoad ++ ", " ++ finalPc))

/-- Version B's standardized address of an unmatched query. -/
def stdAddrUnmatchedB (q : AddressQuery) : String :=
  let finalPc := if q.postcode != "" then q.postcode else "UNKNOWN"
  upperStr (stripCommaSpace (q.house_number ++ " " ++ q.search_term ++ ", " ++ finalPc))

/-- Version A, matched branch: classification, area cross-check, postcode
quality tier (full pattern → HIGH; district pattern, or empty postcode
with a stored district → PARTIAL +10 MEDIUM; else MISSING +30 LOW), and
the final profile with the score capped by `min(risk_score, 100)`. -/
def scoreMatchedA (q : AddressQuery) (r : OsRecord) : CustomerAddressProfile :=
  let geoFlags : List String := if geoBad q r then ["GEOGRAPHIC_AREA_MISMATCH"] else []
  let geoScore : Int := if geoBad q r then 40 else 0
  let tiered : List String × Int × String :=
    if fullPcMatch q.postcode then
      (geoFlags, geoScore, "HIGH")
    else if distPcMatch q.postcode ||
        (q.postcode == "" && (r.POSTCODE_DISTRICT.getD "") != "") then
      (geoFlags ++ ["PARTIAL_POSTCODE_DISTRICT"], geoScore + 10, "MEDIUM")
    else
      (geoFlags ++ ["MISSING_OR_INVALID_POSTCODE"], geoScore + 30, "LOW")
  { is_valid := true
    standardized_address := stdAddrMatched q r
    classification := classifyRecord r
    populated_place := r.POPULATED_PLACE
    district_borough := r.DISTRICT_BOROUGH
    county := r.COUNTY_UNITARY
    risk_score := min tiered.2.1 100
    risk_flags := tiered.1
    confidence_level := tiered.2.2
    meta_os_id := r.ID
    meta_local_type := r.LOCAL_TYPE
    meta_country := r.COUNTRY }

/-- Version A, unmatched branch: `ADDRESS_NOT_IN_DATABASE`, score 90,
classification UNKNOWN, confidence LOW. -/
def scoreUnmatchedA (q : AddressQuery) : CustomerAddressProfile :=
  { is_valid := false
    standardized_address := stdAddrUnmatchedA q
    classification := "UNKNOWN"
    populated_place := none
    district_borough := none
    county := none
    risk_score := min 90 100
    risk_flags := ["ADDRESS_NOT_IN_DATABASE"]
    confidence_level := "LOW"
    meta_os_id := none
    meta_local_type := none
    meta_country := some "UK" }

/-- Version A's `AddressAgent.validate`, as a function of the parser
output, the raw input and the table contents. -/
def validateA (parsed : List (String × String)) (raw : String)
    (tbl : List OsRecord) : Except String CustomerAddressProfile :=
  match normalizeQuery parsed raw with
  | Except.error e => Except.error e
  | Except.ok q =>
    match matchRecords tbl q with
    | some r => Except.ok (scoreMatchedA q r)
    | none => Except.ok (scoreUnmatchedA q)

/-- Version B, matched branch.  It differs from version A in the MEDIUM
condition — `elif input_district or (not postcode and
db_match['POSTCODE_DISTRICT'])` instead of the district regex — and in
the duplicate step: when the random draw `dup` fires, the flag
`DUPLICATE ADDRESSES TRACKED` is appended and the score raised by
`min(risk_score + 30, 100)`. -/
def scoreMatchedB (q : AddressQuery) (r : OsRecord) (dup : Bool) : CustomerAddressDQ :=
  let geoFlags : List String := if geoBad q r then ["GEOGRAPHIC_AREA_MISMATCH"] else []
  let geoScore : Int := if geoBad q r then 40 else 0
  let tiered : List String × Int × String :=
    if fullPcMatch q.postcode then
      (geoFlags, geoScore, "HIGH")
    else if q.input_district != "" ||
        (q.postcode == "" && (r.POSTCODE_DISTRICT.getD "") != "") then
      (geoFlags ++ ["PARTIAL_POSTCODE_DISTRICT"], geoScore + 10, "MEDIUM")
    else
      (geoFlags ++ ["MISSING_OR_INVALID_POSTCODE"], geoScore + 30, "LOW")
  let flags2 := if dup then tiered.1 ++ ["DUPLICATE ADDRESSES TRACKED"] else tiered.1
  let score2 : Int := if dup then min (tiered.2.1 + 30) 100 else tiered.2.1
  { is_valid := true
    standardized_address := stdAddrMatched q r
    classification := classifyRecord r
    is_duplicate := dup
    populated_place := r.POPULATED_PLACE
    district_borough := r.DISTRICT_BOROUGH
    county := r.COUNTY_UNITARY
    risk_score := min score2 100
    risk_flags := flags2
    confidence_level := tiered.2.2
    meta_os_id := r.ID
    meta_local_type := r.LOCAL_TYPE
    meta_country := r.COUNTRY }

/-- Version B, unmatched branch, including the duplicate step. -/
def scoreUnmatchedB (q : AddressQuery) (dup : Bool) : CustomerAddressDQ :=
  let flags2 := if dup then
      ["ADDRESS_NOT_IN_DATABASE", "DUPLICATE ADDRESSES TRACKED"]
    else
      ["ADDRESS_NOT_IN_DATABASE"]
  let score2 : Int := if dup then min (90 + 30) 100 else 90
  { is_valid := false
    standardized_address := stdAddrUnmatchedB q
    classification := "UNKNOWN"
    is_duplicate := dup
    populated_place := none
    district_borough := none
    county := none
    risk_score := min score2 100
    risk_flags := flags2
    confidence_level := "LOW"
    meta_os_id := none
    meta_local_type := some "N/A"
    meta_country := some "UK" }

/-- Version B's `AddressAgent.validate`.  `dup` is the outcome of the
random draw `random.random() < 0.20` in `AddressAgent._is_duplicate`. -/
def validateB (parsed : List (String × String)) (raw : String)
    (tbl : List OsRecord) (dup : Bool) : Except String CustomerAddressDQ :=
  match normalizeQuery parsed raw with
  | Except.error e => Except.error e
  | Except.ok q =>
    match matchRecords tbl q with
    | some r => Except.ok (scoreMatchedB q r dup)
    | none => Except.ok (scoreUnmatchedB q dup)

/-- The `valid_types` list of `initialize_database`. -/
def validTypes : List String :=
  ["Postcode", "Named Road", "Village", "Hamlet"]

/-- The ingest filter `df['LOCAL_TYPE'].isin(valid_types)`: a NaN cell is
in no list, so a row without a LOCAL_TYPE is dropped too. -/
def keepRow (r : OsRecord) : Bool :=
  match r.LOCAL_TYPE with
  | none => false
  | some t => strIn t validTypes

/-- One CSV file of the data directory: its path and its rows, already
projected to the eight kept columns. -/
structure CsvFile where
  name : String
  rows : List OsRecord
deriving DecidableEq, Repr

/-- The filesystem inputs of `initialize_database`.  `header = none`
models a missing header file (pandas raises before the database is
touched); `dataDir = none` models a missing data directory, on which
`glob.glob` silently returns the empty list. -/
structure BuildInput where
  header : Option (List String)
  dataDir : Option (List CsvFile)
deriving DecidableEq, Repr

/-- Python `"header" in file.lower()`. -/
def hasHeaderName (path : String) : Bool :=
  containsSub "header".data (lowerStr path).data

/-- The ingest loop: skip any file whose path contains "header", filter
the remaining rows by `LOCAL_TYPE` and append them with `to_sql`, which
creates the `os_data` table (even for an all-filtered file) if the DROP
left none. -/
def processFiles (files : List CsvFile) (tbl : Option (List OsRecord)) :
    Option (List OsRecord) :=
  files.foldl
    (fun acc f =>
      if hasHeaderName f.name then acc
      else some (acc.getD [] ++ f.rows.filter keepRow))
    tbl

/-- Python `glob.glob(os.path.join(data_folder_path, "*.csv"))`: on a
missing directory glob raises nothing and returns the empty list. -/
def globFiles (dataDir : Option (List CsvFile)) : List CsvFile :=
  dataDir.getD []

/-- The `initialize_database` build: read the header schema (pandas is
fatal if the file is missing, and nothing has been touched yet), `DROP
TABLE IF EXISTS os_data` (the `none` accumulator below), ingest every CSV
file `glob` finds, then `CREATE INDEX` — which raises `no such table`
when no file recreated the dropped table.  The pair returned is (build
outcome, final state of the `os_data` table); `db` is the table's state
before the build. -/
def initialize_database (inp : BuildInput) (db : Option (List OsRecord)) :
    Except String Unit × Option (List OsRecord) :=
  match inp.header with
  | none => (Except.error "FileNotFoundError: header file missing", db)
  | some _ =>
    match processFiles (globFiles inp.dataDir) none with
    | none => (Except.error "sqlite3.OperationalError: no such table: os_data", none)
    | some t => (Except.ok (), some t)

/-- The postcode-tier contribution to the risk score in version A:
nothing for a full postcode, +10 for the PARTIAL tier, +30 for the
MISSING tier. -/
def tierAddA (q : AddressQuery) (r : OsRecord) : Int :=
  if fullPcMatch q.postcode then 0
  else if distPcMatch q.postcode ||
      (q.postcode == "" && (r.POSTCODE_DISTRICT.getD "") != "") then 10
  else 30

/-- The postcode-tier contribution to the risk score in version B. -/
def tierAddB (q : AddressQuery) (r : OsRecord) : Int :=
  if fullPcMatch q.postcode then 0
  else if q.input_district != "" ||
      (q.postcode == "" && (r.POSTCODE_DISTRICT.getD "") != "") then 10
  else 30

/-- Concrete fixture: a typical Named Road gazetteer record. -/
def melbyRec : OsRecord :=
  { ID := some "1", NAME1 := some "Melby Road", LOCAL_TYPE := some "Named Road",
    POSTCODE_DISTRICT := some "ZE2", POPULATED_PLACE := none,
    DISTRICT_BOROUGH := none, COUNTY_UNITARY := none, COUNTRY := some "Scotland" }

/-- Concrete fixture: a record whose name contains no SQL wildcard but is
matched by a wildcard-bearing search term. -/
def wildRec : OsRecord :=
  { ID := some "2", NAME1 := some "AXB", LOCAL_TYPE := some "Village",
    POSTCODE_DISTRICT := some "Z1", POPULATED_PLACE := none,
    DISTRICT_BOROUGH := none, COUNTY_UNITARY := none, COUNTRY := none }

/-- Concrete fixture: a query whose search term carries a SQL `%`
wildcard (reachable from the raw input "A%B, Z 1"). -/
def wildQuery : AddressQuery :=
  { search_term := "A%B", postcode := "Z 1", input_district := "Z",
    area_context := "", house_number := "" }

/-- Concrete fixture: a CSV row with a recognized kind but no NAME1. -/
def noNameRow : OsRecord :=
  { ID := some "9", NAME1 := none, LOCAL_TYPE := some "Village",
    POSTCODE_DISTRICT := none, POPULATED_PLACE := none,
    DISTRICT_BOROUGH := none, COUNTY_UNITARY := none, COUNTRY := none }

/-- Concrete fixture: a build whose data directory holds one file with
the one record `melbyRec`. -/
def buildRoads : BuildInput :=
  { header := some ["ID"], dataDir := some [{ name := "Data/csv/roads.csv", rows := [melbyRec] }] }

/-- Concrete fixture: a build whose data directory holds one file with
the single name-less row `noNameRow`. -/
def buildNoName : BuildInput :=
  { header := some ["ID"], dataDir := some [{ name := "Data/csv/bad.csv", rows := [noNameRow] }] }

/-- Concrete fixture: a query that exact-matches `melbyRec` by name. -/
def melbyQuery : AddressQuery :=
  { search_term := "MELBY ROAD", postcode := "", input_district := "",
    area_context := "", house_number := "" }

/-- Concrete fixture: version A's profile for the unmatched input "X". -/
def profileUnmatchedX : CustomerAddressProfile :=
  { is_valid := false, standardized_address := "X, UNKNOWN POSTCODE",
    classification := "UNKNOWN", populated_place := none,
    district_borough := none, county := none, risk_score := 90,
    risk_flags := ["ADDRESS_NOT_IN_DATABASE"], confidence_level := "LOW",
    meta_os_id := none, meta_local_type := none, meta_country := some "UK" }

/-- Concrete fixture: version B's profile for the unmatched input "X"
when the duplicate draw is false. -/
def profileUnmatchedXB : CustomerAddressDQ :=
  { is_valid := false, standardized_address := "X, UNKNOWN",
    classification := "UNKNOWN", is_duplicate := false,
    populated_place := none, district_borough := none, county := none,
    risk_score := 90, risk_flags := ["ADDRESS_NOT_IN_DATABASE"],
    confidence_level := "LOW", meta_os_id := none,
    meta_local_type := some "N/A", meta_country := some "UK" }

/-- Concrete fixture: version B's profile for the unmatched input "Y"
when the duplicate draw is true. -/
def profileDupY : CustomerAddressDQ :=
  { is_valid := false, standardized_address := "Y, UNKNOWN",
    classification := "UNKNOWN", is_duplicate := true,
    populated_place := none, district_borough := none, county := none,
    risk_score := 100,
    risk_flags := ["ADDRESS_NOT_IN_DATABASE", "DUPLICATE ADDRESSES TRACKED"],
    confidence_level := "LOW", meta_os_id := none,
    meta_local_type := some "N/A", meta_country := some "UK" }

/-- Concrete fixture: version B's profile for the unmatched input "Y"
when the duplicate draw is false. -/
def profileNoDupY : CustomerAddressDQ :=
  { is_valid := false, standardized_address := "Y, UNKNOWN",
    classification := "UNKNOWN", is_duplicate := false,
    populated_place := none, district_borough := none, county := none,
    risk_score := 90, risk_flags := ["ADDRESS_NOT_IN_DATABASE"],
    confidence_level := "LOW", meta_os_id := none,
    meta_local_type := some "N/A", meta_country := some "UK" }

/-- Helper: `List.find?` returns exactly the first element, in list
order, satisfying the predicate. -/
theorem find_first_iff {α : Type} (p : α → Bool) (l : List α) (a : α) :
    l.find? p = some a ↔
      (p a = true ∧ ∃ pre post, l = pre ++ a :: post ∧ ∀ x ∈ pre, p x = false) := by
  rw [List.find?_eq_some]
  simp [Bool.not_eq_true]

/-- Helper: a record returned by the two-tier search is a row of the
table. -/
theorem matchRecords_mem {tbl : List OsRecord} {q : AddressQuery} {r : OsRecord}
    (h : matchRecords tbl q = some r) : r ∈ tbl := by
  unfold matchRecords at h
  by_cases hst : q.search_term = ""
  · simp [hst] at h
  · rw [if_neg hst] at h
    by_cases hd : q.input_district = ""
    · rw [if_pos hd] at h
      exact List.mem_of_find?_eq_some h
    · rw [if_neg hd] at h
      cases h1 : tbl.find? (tier1Pred q) with
      | some r1 =>
        rw [h1] at h
        obtain rfl : r1 = r := Option.some.inj h
        exact List.mem_of_find?_eq_some h1
      | none =>
        rw [h1] at h
        exact List.mem_of_find?_eq_some h

/-- Helper: every row the ingest loop adds over an accumulator either was
already in the accumulator or passed the `LOCAL_TYPE` filter. -/
theorem mem_processFiles {files : List CsvFile} {acc : Option (List OsRecord)}
    {r : OsRecord} (h : r ∈ (processFiles files acc).getD []) :
    r ∈ acc.getD [] ∨ keepRow r = true := by
  induction files generalizing acc with
  | nil => exact Or.inl h
  | cons f fs ih =>
    have h2 : r ∈ (processFiles fs (if hasHeaderName f.name then acc
        else some (acc.getD [] ++ f.rows.filter keepRow))).getD [] := h
    rcases ih h2 with hm | hk
    · by_cases hh : hasHeaderName f.name
      · rw [if_pos hh] at hm
        exact Or.inl hm
      · rw [if_neg hh] at hm
        simp only [Option.getD_some] at hm
        rcases List.mem_append.mp hm with hl | hr
        · exact Or.inl hl
        · exact Or.inr (List.mem_filter.mp hr).2
    · exact Or.inr hk

/-- Helper: every row of a table produced by a successful build passed
the `LOCAL_TYPE` filter. -/
theorem build_keepRow {inp : BuildInput} {db : Option (List OsRecord)}
    {tbl : List OsRecord} {r : OsRecord}
    (hok : (initialize_database inp db).1 = Except.ok ())
    (htbl : (initialize_database inp db).2 = some tbl) (hr : r ∈ tbl) :
    keepRow r = true := by
  obtain ⟨hdr, dd⟩ := inp
  cases hdr with
  | none => exact absurd hok (by simp [initialize_database])
  | some cols =>
    cases hb : processFiles (globFiles dd) none with
    | none =>
      rw [show initialize_database ⟨some cols, dd⟩ db =
          (Except.error "sqlite3.OperationalError: no such table: os_data", none) by
        simp [initialize_database, hb]] at hok
      exact absurd hok (by simp)
    | some t =>
      rw [show initialize_database ⟨some cols, dd⟩ db = (Except.ok (), some t) by
        simp [initialize_database, hb]] at htbl
      simp only [Option.some.injEq] at htbl
      subst htbl
      have hmem : r ∈ (processFiles (globFiles dd) none).getD [] := by
        rw [hb]
        exact hr
      rcases mem_processFiles hmem with h0 | hk
      · simp at h0
      · exact hk

/-- Helper: the build's recognized kinds all lie in the scorer's
residential list. -/
theorem validTypes_residential {t : String} (h : strIn t validTypes = true) :
    strIn t residentialTypes = true := by
  simp only [strIn, validTypes, List.any_eq_true] at h
  obtain ⟨y, hy, hbeq⟩ := h
  obtain rfl : y = t := by simpa using hbeq
  fin_cases hy <;> decide

/-- Helper: version A's matched risk score is between 0 and 100. -/
theorem scoreMatchedA_bounds (q : AddressQuery) (r : OsRecord) :
    0 ≤ (scoreMatchedA q r).risk_score ∧ (scoreMatchedA q r).risk_score ≤ 100 := by
  simp only [scoreMatchedA]
  split <;> split <;> simp <;> omega

/-- Helper: version B's matched risk score is between 0 and 100. -/
theorem scoreMatchedB_bounds (q : AddressQuery) (r : OsRecord) (dup : Bool) :
    0 ≤ (scoreMatchedB q r dup).risk_score ∧ (scoreMatchedB q r dup).risk_score ≤ 100 := by
  simp only [scoreMatchedB]
  by_cases h1 : fullPcMatch q.postcode <;>
    by_cases h2 : (q.input_district != "" ||
      (q.postcode == "" && (r.POSTCODE_DISTRICT.getD "") != "")) = true <;>
    by_cases h3 : geoBad q r <;>
    cases dup <;>
    simp [h1, h2, h3] <;> omega

/-- C2 (code bug in version B): on the matched query for "Melby Road"
with postcode "ZE2 9P" — which matches neither the full pattern nor the
district-only pattern — version B flags PARTIAL_POSTCODE_DISTRICT with
+10 and confidence MEDIUM, because it tests mere truthiness of
`input_district` instead of the district regex; the claim (and version A,
which implements it) require MISSING_OR_INVALID_POSTCODE with +30 and
confidence LOW. -/
theorem c2_postcode_tier_divergence :
    fullPcMatch "ZE2 9P" = false ∧ distPcMatch "ZE2 9P" = false ∧
    Except.map (fun p => (p.risk_flags, p.risk_score, p.confidence_level))
        (validateB [("Melby Road", "road"), ("ZE2 9P", "postcode")]
          "Melby Road, ZE2 9P" [melbyRec] false) =
      Except.ok (["PARTIAL_POSTCODE_DISTRICT"], 10, "MEDIUM") ∧
    Except.map (fun p => (p.risk_flags, p.risk_score, p.confidence_level))
        (validateA [("Melby Road", "road"), ("ZE2 9P", "postcode")]
          "Melby Road, ZE2 9P" [melbyRec]) =
      Except.ok (["MISSING_OR_INVALID_POSTCODE"], 30, "LOW") :=
  ⟨rfl, rfl, rfl, rfl⟩

/-- C4 (code bug): on an empty — or whitespace-only — input with no
parsed tokens and no comma, both validators evaluate
`user_input.split()[0]` on an empty list and raise IndexError instead of
resolving to a no-match profile. -/
theorem c4_empty_input_raises :
    validateA [] "" [] = Except.error "IndexError: list index out of range" ∧
    validateB [] "" [] false = Except.error "IndexError: list index out of range" ∧
    validateA [] "   " [] = Except.error "IndexError: list index out of range" ∧
    normalizeQuery [] "" = Except.error "IndexError: list index out of range" :=
  ⟨rfl, rfl, rfl, rfl⟩

/-- C5 (amended): a missing header file fails the build before the
database is touched, leaving any previous index unchanged; a missing data
directory also fails the build (sqlite reports `no such table` when the
index is created), but only after the previous `os_data` table has been
dropped — the table ends up gone, not preserved. -/
theorem c5_build_failure_modes :
    ∀ (cols : List String) (dd : Option (List CsvFile)) (db : Option (List OsRecord)),
      initialize_database { header := none, dataDir := dd } db =
        (Except.error "FileNotFoundError: header file missing", db) ∧
      initialize_database { header := some cols, dataDir := none } db =
        (Except.error "sqlite3.OperationalError: no such table: os_data", none) :=
  fun _ _ _ => ⟨rfl, rfl⟩

/-- C5 counterexample: a build over a missing data directory, started
with a previous one-record index, fails — and the previous index does not
remain: the table is gone. -/
theorem c5_counterexample :
    (initialize_database { header := some ["ID"], dataDir := none } (some [melbyRec])).1 =
      Except.error "sqlite3.OperationalError: no such table: os_data" ∧
    (initialize_database { header := some ["ID"], dataDir := none } (some [melbyRec])).2 ≠
      some [melbyRec] ∧
    (initialize_database { header := some ["ID"], dataDir := none } (some [melbyRec])).2 =
      none :=
  ⟨rfl, by decide, rfl⟩

/-- C6 counterexample: a search term carrying the SQL wildcard `%`
matches — and the engine returns — a record whose name neither starts
with the search term nor equals it: `LIKE` is not plain starts-with. -/
theorem c6_counterexample :
    matchRecords [wildRec] wildQuery = some wildRec ∧
    wildRec.NAME1 = some "AXB" ∧ wildQuery.search_term = "A%B" ∧
    ("A%B".data.isPrefixOf (upperStr "AXB").data) = false ∧
    (upperStr "AXB" == "A%B") = false :=
  ⟨rfl, rfl, rfl, rfl, rfl⟩

/-- C7 counterexample: the build stores a row with a recognized kind but
a missing NAME1 as-is — rows are filtered on `LOCAL_TYPE` only, never on
`NAME1`. -/
theorem c7_counterexample :
    (initialize_database buildNoName none).1 = Except.ok () ∧
    (initialize_database buildNoName none).2 = some [noNameRow] ∧
    noNameRow.NAME1 = none :=
  ⟨rfl, rfl, rfl⟩

/-- C1 counterexample: on the unmatched input "X", version B with a
firing duplicate draw returns risk score 100 and two flags — not
score 90 with the single flag ADDRESS_NOT_IN_DATABASE. -/
theorem c1_counterexample :
    Except.map (fun p => (p.is_valid, p.risk_score, p.risk_flags))
        (validateB [] "X" [] true) =
      Except.ok (false, 100,
        ["ADDRESS_NOT_IN_DATABASE", "DUPLICATE ADDRESSES TRACKED"]) :=
  rfl

/-- C9 counterexample: two runs of version B on the unmatched input "Y"
that differ only in the random duplicate draw return different risk
scores (100 versus 90) and different flag lists. -/
theorem c9_counterexample :
    Except.map (fun p => (p.risk_score, p.risk_flags)) (validateB [] "Y" [] true) =
      Except.ok (100, ["ADDRESS_NOT_IN_DATABASE", "DUPLICATE ADDRESSES TRACKED"]) ∧
    Except.map (fun p => (p.risk_score, p.risk_flags)) (validateB [] "Y" [] false) =
      Except.ok (90, ["ADDRESS_NOT_IN_DATABASE"]) :=
  ⟨rfl, rfl⟩

/-- C1 (amended): for every query the match engine fails to match,
version A's returned profile always has classification UNKNOWN, risk
score exactly 90, confidence LOW and exactly the single flag
ADDRESS_NOT_IN_DATABASE; version B returns exactly these whenever the
random duplicate draw is false (when the draw fires, the flag
DUPLICATE ADDRESSES TRACKED is appended and the score becomes 100 — see
the counterexample). -/
theorem c1_unmatched_profile :
    (∀ parsed raw tbl p, validateA parsed raw tbl = Except.ok p → p.is_valid = false →
      p.classification = "UNKNOWN" ∧ p.risk_score = 90 ∧
        p.confidence_level = "LOW" ∧ p.risk_flags = ["ADDRESS_NOT_IN_DATABASE"]) ∧
    (∀ parsed raw tbl p, validateB parsed raw tbl false = Except.ok p → p.is_valid = false →
      p.classification = "UNKNOWN" ∧ p.risk_score = 90 ∧
        p.confidence_level = "LOW" ∧ p.risk_flags = ["ADDRESS_NOT_IN_DATABASE"]) := by
  constructor
  · intro parsed raw tbl p hok hval
    unfold validateA at hok
    cases hnq : normalizeQuery parsed raw with
    | error e => rw [hnq] at hok; cases hok
    | ok q =>
      rw [hnq] at hok
      cases hm : matchRecords tbl q with
      | some r =>
        simp only [hm] at hok
        obtain rfl := Except.ok.inj hok
        simp [scoreMatchedA] at hval
      | none =>
        simp only [hm] at hok
        obtain rfl := Except.ok.inj hok
        refine ⟨rfl, ?_, rfl, rfl⟩
        simp only [scoreUnmatchedA]
        omega
  · intro parsed raw tbl p hok hval
    unfold validateB at hok
    cases hnq : normalizeQuery parsed raw with
    | error e => rw [hnq] at hok; cases hok
    | ok q =>
      rw [hnq] at hok
      cases hm : matchRecords tbl q with
      | some r =>
        simp only [hm] at hok
        obtain rfl := Except.ok.inj hok
        simp [scoreMatchedB] at hval
      | none =>
        simp only [hm] at hok
        obtain rfl := Except.ok.inj hok
        refine ⟨rfl, ?_, rfl, rfl⟩
        norm_num [scoreUnmatchedB]

/-- C1 witness: the theorem applied to the concrete unmatched input "X"
against the empty index, for both versions. -/
theorem c1_witness :
    validateA [] "X" [] = Except.ok profileUnmatchedX ∧
    profileUnmatchedX.is_valid = false ∧
    validateB [] "X" [] false = Except.ok profileUnmatchedXB ∧
    profileUnmatchedXB.is_valid = false ∧
    (profileUnmatchedX.classification = "UNKNOWN" ∧ profileUnmatchedX.risk_score = 90 ∧
      profileUnmatchedX.confidence_level = "LOW" ∧
      profileUnmatchedX.risk_flags = ["ADDRESS_NOT_IN_DATABASE"]) ∧
    (profileUnmatchedXB.classification = "UNKNOWN" ∧ profileUnmatchedXB.risk_score = 90 ∧
      profileUnmatchedXB.confidence_level = "LOW" ∧
      profileUnmatchedXB.risk_flags = ["ADDRESS_NOT_IN_DATABASE"]) :=
  ⟨rfl, rfl, rfl, rfl,
    c1_unmatched_profile.1 [] "X" [] profileUnmatchedX rfl rfl,
    c1_unmatched_profile.2 [] "X" [] profileUnmatchedXB rfl rfl⟩

/-- C3: every profile either validator returns carries a risk score
between 0 and 100 — the per-rule additions are non-negative and the final
value is `min(risk_score, 100)`. -/
theorem c3_risk_score_bounds :
    (∀ parsed raw tbl p, validateA parsed raw tbl = Except.ok p →
      0 ≤ p.risk_score ∧ p.risk_score ≤ 100) ∧
    (∀ parsed raw tbl dup p, validateB parsed raw tbl dup = Except.ok p →
      0 ≤ p.risk_score ∧ p.risk_score ≤ 100) := by
  constructor
  · intro parsed raw tbl p hok
    unfold validateA at hok
    cases hnq : normalizeQuery parsed raw with
    | error e => rw [hnq] at hok; cases hok
    | ok q =>
      rw [hnq] at hok
      cases hm : matchRecords tbl q with
      | some r =>
        simp only [hm] at hok
        obtain rfl := Except.ok.inj hok
        exact scoreMatchedA_bounds q r
      | none =>
        simp only [hm] at hok
        obtain rfl := Except.ok.inj hok
        constructor <;> simp [scoreUnmatchedA]
  · intro parsed raw tbl dup p hok
    unfold validateB at hok
    cases hnq : normalizeQuery parsed raw with
    | error e => rw [hnq] at hok; cases hok
    | ok q =>
      rw [hnq] at hok
      cases hm : matchRecords tbl q with
      | some r =>
        simp only [hm] at hok
        obtain rfl := Except.ok.inj hok
        exact scoreMatchedB_bounds q r dup
      | none =>
        simp only [hm] at hok
        obtain rfl := Except.ok.inj hok
        cases dup <;> constructor <;> simp [scoreUnmatchedB]

/-- C3 witness: the bounds at the concrete unmatched input "X". -/
theorem c3_witness :
    validateA [] "X" [] = Except.ok profileUnmatchedX ∧
    (0 ≤ profileUnmatchedX.risk_score ∧ profileUnmatchedX.risk_score ≤ 100) :=
  ⟨rfl, c3_risk_score_bounds.1 [] "X" [] profileUnmatchedX rfl⟩

/-- C6 (amended): the engine evaluates its tiers in order, first success
wins, and returns at most one record.  Tier 1 (non-empty search term and
district) returns the first record in index order whose uppercased NAME1
matches the SQL LIKE pattern `search_term%` and whose uppercased
POSTCODE_DISTRICT matches `input_district%` — LIKE, with `%` and `_` in
the query acting as wildcards, not plain starts-with (see the
counterexample).  Tier 2 (non-empty search term, tier 1 empty or
skipped) returns the first record whose uppercased NAME1 equals the
search term.  Otherwise no match. -/
theorem c6_match_tiers :
    ∀ (tbl : List OsRecord) (q : AddressQuery) (r : OsRecord),
      matchRecords tbl q = some r ↔
        (q.search_term ≠ "" ∧
          ((q.input_district ≠ "" ∧ tier1Pred q r = true ∧
              (∃ pre post, tbl = pre ++ r :: post ∧ ∀ x ∈ pre, tier1Pred q x = false)) ∨
           ((q.input_district = "" ∨ (∀ x ∈ tbl, tier1Pred q x = false)) ∧
              tier2Pred q r = true ∧
              (∃ pre post, tbl = pre ++ r :: post ∧ ∀ x ∈ pre, tier2Pred q x = false)))) := by
  intro tbl q r
  unfold matchRecords
  by_cases hst : q.search_term = ""
  · simp [hst]
  · rw [if_neg hst]
    by_cases hd : q.input_district = ""
    · rw [if_pos hd]
      constructor
      · intro h
        exact ⟨hst, Or.inr ⟨Or.inl hd, ((find_first_iff _ _ _).mp h).1,
          ((find_first_iff _ _ _).mp h).2⟩⟩
      · rintro ⟨-, hcase⟩
        rcases hcase with ⟨hne, -, -⟩ | ⟨-, hp, hfirst⟩
        · exact absurd hd hne
        · exact (find_first_iff _ _ _).mpr ⟨hp, hfirst⟩
    · rw [if_neg hd]
      cases h1 : tbl.find? (tier1Pred q) with
      | some r1 =>
        constructor
        · intro h
          obtain rfl : r1 = r := Option.some.inj h
          obtain ⟨hp, hfirst⟩ := (find_first_iff _ _ _).mp h1
          exact ⟨hst, Or.inl ⟨hd, hp, hfirst⟩⟩
        · rintro ⟨-, hcase⟩
          rcases hcase with ⟨-, hp, hfirst⟩ | ⟨hnone, -, -⟩
          · have h2 := (find_first_iff (tier1Pred q) tbl r).mpr ⟨hp, hfirst⟩
            rw [h1] at h2
            exact h2
          · rcases hnone with hd2 | hall
            · exact absurd hd2 hd
            · have hm := List.mem_of_find?_eq_some h1
              have hp1 := List.find?_some h1
              rw [hall r1 hm] at hp1
              cases hp1
      | none =>
        constructor
        · intro h
          obtain ⟨hp, hfirst⟩ := (find_first_iff _ _ _).mp h
          exact ⟨hst, Or.inr ⟨Or.inr (fun x hx =>
            by simpa using List.find?_eq_none.mp h1 x hx), hp, hfirst⟩⟩
        · rintro ⟨-, hcase⟩
          rcases hcase with ⟨-, hp, hfirst⟩ | ⟨-, hp, hfirst⟩
          · have h2 := (find_first_iff (tier1Pred q) tbl r).mpr ⟨hp, hfirst⟩
            rw [h1] at h2
            cases h2
          · exact (find_first_iff _ _ _).mpr ⟨hp, hfirst⟩

/-- C7 (amended): every row a successful build stores has a LOCAL_TYPE
and it lies in the recognized set — but nothing more is checked: NAME1 is
not filtered (see the counterexample). -/
theorem c7_build_rows :
    ∀ (inp : BuildInput) (db : Option (List OsRecord)) (tbl : List OsRecord)
      (r : OsRecord),
      (initialize_database inp db).1 = Except.ok () →
      (initialize_database inp db).2 = some tbl →
      r ∈ tbl →
      ∃ t, r.LOCAL_TYPE = some t ∧ strIn t validTypes = true := by
  intro inp db tbl r hok htbl hr
  have hk := build_keepRow hok htbl hr
  unfold keepRow at hk
  cases hlt : r.LOCAL_TYPE with
  | none => rw [hlt] at hk; cases hk
  | some t => rw [hlt] at hk; exact ⟨t, rfl, hk⟩

/-- C7 witness: the theorem applied to a concrete one-file build. -/
theorem c7_witness :
    (initialize_database buildRoads none).1 = Except.ok () ∧
    (initialize_database buildRoads none).2 = some [melbyRec] ∧
    melbyRec ∈ [melbyRec] ∧
    (∃ t, melbyRec.LOCAL_TYPE = some t ∧ strIn t validTypes = true) :=
  ⟨rfl, rfl, List.Mem.head _,
    c7_build_rows buildRoads none [melbyRec] melbyRec rfl rfl (List.Mem.head _)⟩

/-- C8: for every matched record, the flag GEOGRAPHIC_AREA_MISMATCH is
present exactly when the area context is non-empty and equals neither the
uppercased populated place nor the uppercased district borough (skipping
empty fields) — and it contributes exactly +40 to the risk score, in
versions A and B alike. -/
theorem c8_geo_mismatch :
    ∀ (q : AddressQuery) (r : OsRecord) (dup : Bool),
      (geoBad q r = true ↔
        (q.area_context ≠ "" ∧
          ¬((upperStr (r.POPULATED_PLACE.getD "") ≠ "" ∧
              upperStr (r.POPULATED_PLACE.getD "") = q.area_context) ∨
            (upperStr (r.DISTRICT_BOROUGH.getD "") ≠ "" ∧
              upperStr (r.DISTRICT_BOROUGH.getD "") = q.area_context)))) ∧
      ("GEOGRAPHIC_AREA_MISMATCH" ∈ (scoreMatchedA q r).risk_flags ↔ geoBad q r = true) ∧
      ("GEOGRAPHIC_AREA_MISMATCH" ∈ (scoreMatchedB q r dup).risk_flags ↔ geoBad q r = true) ∧
      (scoreMatchedA q r).risk_score = (if geoBad q r then 40 else 0) + tierAddA q r ∧
      (scoreMatchedB q r dup).risk_score =
        (if geoBad q r then 40 else 0) + tierAddB q r + (if dup then 30 else 0) := by
  intro q r dup
  refine ⟨?_, ?_, ?_, ?_, ?_⟩
  · simp [geoBad, not_or]
    tauto
  · by_cases h1 : fullPcMatch q.postcode <;>
      by_cases h2 : (distPcMatch q.postcode ||
        (q.postcode == "" && (r.POSTCODE_DISTRICT.getD "") != "")) = true <;>
      cases hg : geoBad q r <;>
      simp [scoreMatchedA, h1, h2, hg]
  · by_cases h1 : fullPcMatch q.postcode <;>
      by_cases h2 : (q.input_district != "" ||
        (q.postcode == "" && (r.POSTCODE_DISTRICT.getD "") != "")) = true <;>
      cases hg : geoBad q r <;> cases dup <;>
      simp [scoreMatchedB, h1, h2, hg]
  · by_cases h1 : fullPcMatch q.postcode <;>
      by_cases h2 : (distPcMatch q.postcode ||
        (q.postcode == "" && (r.POSTCODE_DISTRICT.getD "") != "")) = true <;>
      cases hg : geoBad q r <;>
      simp [scoreMatchedA, tierAddA, h1, h2, hg] <;> omega
  · by_cases h1 : fullPcMatch q.postcode <;>
      by_cases h2 : (q.input_district != "" ||
        (q.postcode == "" && (r.POSTCODE_DISTRICT.getD "") != "")) = true <;>
      cases hg : geoBad q r <;> cases dup <;>
      simp [scoreMatchedB, tierAddB, h1, h2, hg] <;> omega

/-- C9 (amended): two runs of version B on the same input and index that
differ only in the random duplicate draw agree on every field except
`is_duplicate`, the flag list — the firing draw appends
DUPLICATE ADDRESSES TRACKED — and the risk score, which the firing draw
raises by `min(score + 30, 100)`.  With equal draws the output is
identical (the function is deterministic in its inputs); version A has no
random input at all. -/
theorem c9_duplicate_draw :
    ∀ parsed raw tbl pT pF,
      validateB parsed raw tbl true = Except.ok pT →
      validateB parsed raw tbl false = Except.ok pF →
      pT.is_valid = pF.is_valid ∧
      pT.standardized_address = pF.standardized_address ∧
      pT.classification = pF.classification ∧
      pT.confidence_level = pF.confidence_level ∧
      pT.populated_place = pF.populated_place ∧
      pT.district_borough = pF.district_borough ∧
      pT.county = pF.county ∧
      pT.meta_os_id = pF.meta_os_id ∧
      pT.meta_local_type = pF.meta_local_type ∧
      pT.meta_country = pF.meta_country ∧
      pT.is_duplicate = true ∧ pF.is_duplicate = false ∧
      pT.risk_flags = pF.risk_flags ++ ["DUPLICATE ADDRESSES TRACKED"] ∧
      pT.risk_score = min (pF.risk_score + 30) 100 := by
  intro parsed raw tbl pT pF hT hF
  unfold validateB at hT hF
  cases hnq : normalizeQuery parsed raw with
  | error e => rw [hnq] at hT; cases hT
  | ok q =>
    rw [hnq] at hT hF
    cases hm : matchRecords tbl q with
    | some r =>
      simp only [hm] at hT hF
      obtain rfl := Except.ok.inj hT
      obtain rfl := Except.ok.inj hF
      refine ⟨rfl, rfl, rfl, rfl, rfl, rfl, rfl, rfl, rfl, rfl, rfl, rfl, rfl, ?_⟩
      simp only [scoreMatchedB, Bool.false_eq_true, if_true, if_false]
      omega
    | none =>
      simp only [hm] at hT hF
      obtain rfl := Except.ok.inj hT
      obtain rfl := Except.ok.inj hF
      refine ⟨rfl, rfl, rfl, rfl, rfl, rfl, rfl, rfl, rfl, rfl, rfl, rfl, rfl, ?_⟩
      norm_num [scoreUnmatchedB]

/-- C9 witness: the theorem applied to the concrete unmatched input "Y". -/
theorem c9_witness :
    validateB [] "Y" [] true = Except.ok profileDupY ∧
    validateB [] "Y" [] false = Except.ok profileNoDupY ∧
    (profileDupY.is_valid = profileNoDupY.is_valid ∧
      profileDupY.standardized_address = profileNoDupY.standardized_address ∧
      profileDupY.classification = profileNoDupY.classification ∧
      profileDupY.confidence_level = profileNoDupY.confidence_level ∧
      profileDupY.populated_place = profileNoDupY.populated_place ∧
      profileDupY.district_borough = profileNoDupY.district_borough ∧
      profileDupY.county = profileNoDupY.county ∧
      profileDupY.meta_os_id = profileNoDupY.meta_os_id ∧
      profileDupY.meta_local_type = profileNoDupY.meta_local_type ∧
      profileDupY.meta_country = profileNoDupY.meta_country ∧
      profileDupY.is_duplicate = true ∧ profileNoDupY.is_duplicate = false ∧
      profileDupY.risk_flags = profileNoDupY.risk_flags ++ ["DUPLICATE ADDRESSES TRACKED"] ∧
      profileDupY.risk_score = min (profileNoDupY.risk_score + 30) 100) :=
  ⟨rfl, rfl, c9_duplicate_draw [] "Y" [] profileDupY profileNoDupY rfl rfl⟩

/-- C10: any record matched against a table produced by a successful
build is classified RESIDENTIAL, never BUSINESS — the build's recognized
kinds are a subset of the scorer's residential list, so the BUSINESS
branch is unreachable for matched records, in versions A and B alike. -/
theorem c10_matched_residential :
    ∀ (inp : BuildInput) (db : Option (List OsRecord)) (tbl : List OsRecord)
      (q : AddressQuery) (r : OsRecord) (dup : Bool),
      (initialize_database inp db).1 = Except.ok () →
      (initialize_database inp db).2 = some tbl →
      matchRecords tbl q = some r →
      (scoreMatchedA q r).classification = "RESIDENTIAL" ∧
      (scoreMatchedB q r dup).classification = "RESIDENTIAL" := by
  intro inp db tbl q r dup hok htbl hm
  have hk := build_keepRow hok htbl (matchRecords_mem hm)
  unfold keepRow at hk
  cases hlt : r.LOCAL_TYPE with
  | none => rw [hlt] at hk; cases hk
  | some t =>
    rw [hlt] at hk
    have hres := validTypes_residential hk
    have hclass : classifyRecord r = "RESIDENTIAL" := by
      unfold classifyRecord
      rw [hlt]
      simp only [Option.getD_some]
      rw [if_pos hres]
    exact ⟨by simp [scoreMatchedA, hclass], by simp [scoreMatchedB, hclass]⟩

/-- C10 witness: the theorem applied to a concrete build and an exact
name match against it. -/
theorem c10_witness :
    (initialize_database buildRoads none).1 = Except.ok () ∧
    (initialize_database buildRoads none).2 = some [melbyRec] ∧
    matchRecords [melbyRec] melbyQuery = some melbyRec ∧
    ((scoreMatchedA melbyQuery melbyRec).classification = "RESIDENTIAL" ∧
      (scoreMatchedB melbyQuery melbyRec false).classification = "RESIDENTIAL") :=
  ⟨rfl, rfl, rfl,
    c10_matched_residential buildRoads none [melbyRec] melbyQuery melbyRec false rfl rfl rfl⟩

end AddressValidation
